import Mathlib

/-!
Verification of the trivia backend's request-handling and query-composition
layer (`backend/flaskr/__init__.py`), as a shallow embedding in Lean.

Conventions of the embedding:
* Database rows (`Question`, `Category`) are Lean structures; the database is a
  `Store` holding the rows in storage order.  SQLAlchemy's `.all()` without
  `order_by` returns rows in storage order; `order_by(col)` is a stable sort on
  that column (modelled with `List.insertionSort`, which is stable).
* JSON values are the inductive `JValue`; a handler returns
  `Except Nat JValue`: `.error c` models Flask's `abort(c)` and `.ok body`
  models `jsonify(body)` with HTTP status 200.  `respond` composes a handler
  result with the registered error handlers to a `(status, body)` pair.
* Python integer slicing `l[start:end]` is `pythonSlice`.
* `random.choice` on a nonempty list is modelled by an arbitrary index
  parameter `k : Nat`, reduced modulo the list length.
-/

namespace Trivia

/-- JSON values, as produced by `jsonify` / consumed from request bodies. -/
inductive JValue where
  | null : JValue
  | bool : Bool → JValue
  | int : Int → JValue
  | str : String → JValue
  | arr : List JValue → JValue
  | obj : List (String × JValue) → JValue
deriving Repr

/-- A row of the `questions` table (models.py `Question`). -/
structure Question where
  id : Int
  question : String
  answer : String
  category : Int
  difficulty : Int
deriving Repr, DecidableEq

/-- A row of the `categories` table (models.py `Category`). -/
structure Category where
  id : Int
  type : String
deriving Repr, DecidableEq

/-- The persistent state seen by one request: the stored rows, in storage
order. -/
structure Store where
  questions : List Question
  categories : List Category
deriving Repr

/-- Modelled from the spec: models.py is not part of the analysed sources; its
`Question.format` returns the dictionary of the five fields of §3 of the data
model, which is what every handler serialises. -/
def Question.format (q : Question) : JValue :=
  .obj [("id", .int q.id), ("question", .str q.question),
        ("answer", .str q.answer), ("category", .int q.category),
        ("difficulty", .int q.difficulty)]

/-- Key lookup in a JSON object (Python `body.get(key)` /
`body[key]` on a dict); `none` on non-objects, where Python subscription with a
string key raises. -/
def jLookup (v : JValue) (key : String) : Option JValue :=
  match v with
  | .obj fields => fields.lookup key
  | _ => none

/-- Python truthiness of a JSON-decoded value (`if value:`):
`None`, `False`, `0`, `""`, `[]`, `{}` are falsy, everything else truthy. -/
def truthy : JValue → Bool
  | .null => false
  | .bool b => b
  | .int n => n ≠ 0
  | .str s => s ≠ ""
  | .arr xs => ! xs.isEmpty
  | .obj fields => ! fields.isEmpty

/-- Python `value != 0` is false exactly on numeric zero: the integer `0` and
the boolean `False` (`bool` is a numeric type in Python); any other
JSON-decoded value compares unequal to `0`. -/
def pyEqZero : JValue → Bool
  | .int n => n = 0
  | .bool b => b = false
  | _ => false

/-- Python slice `l[start:stop]` for integer `start`, `stop`: both indices are
clamped into `[0, length]`, with negative indices counted from the end. -/
def pythonSlice (l : List α) (start stop : Int) : List α :=
  let n : Int := l.length
  let s : Int := if start < 0 then max (n + start) 0 else min start n
  let e : Int := if stop < 0 then max (n + stop) 0 else min stop n
  (l.drop s.toNat).take (e - s).toNat

/-- The query parameters read by `pagination_helper`:
`request.args.get("page", 1, type=int)` and
`request.args.get("questions_per_page", QUESTIONS_PER_PAGE, type=int)`.
`none` models an absent or non-numeric parameter, for which Flask's typed
`get` falls back to the default. -/
structure ReqArgs where
  page : Option Int
  questions_per_page : Option Int
deriving Repr

/-- `QUESTIONS_PER_PAGE = 10`. -/
def QUESTIONS_PER_PAGE : Int := 10

/-- `pagination_helper(request, selection)`: formats the whole selection and
returns the slice `[start:end]` with `start = (page-1)*questions_per_page`,
`end = start + questions_per_page`. -/
def pagination_helper (args : ReqArgs) (selection : List Question) : List JValue :=
  let page := args.page.getD 1
  let questions_per_page := args.questions_per_page.getD QUESTIONS_PER_PAGE
  let start := (page - 1) * questions_per_page
  let stop := start + questions_per_page
  pythonSlice (selection.map Question.format) start stop

/-- SQL `LIKE` pattern matching over characters, as implemented by the
database backing `Question.query.filter(...ilike(...))`: `%` matches any
sequence of characters, `_` matches exactly one character, any other pattern
character matches itself. -/
def likeMatch : List Char → List Char → Bool
  | [], cs => cs.isEmpty
  | p :: ps, cs =>
    if p = '%' then cs.tails.any (fun t => likeMatch ps t)
    else
      match cs with
      | [] => false
      | c :: cs2 => (p = '_' || p = c) && likeMatch ps cs2

/-- `column.ilike(pattern)`: case-insensitive `LIKE`, i.e. `LIKE` after
lowercasing both the pattern and the text character by character. -/
def sqlIlike (pattern text : String) : Bool :=
  likeMatch (pattern.toList.map Char.toLower) (text.toList.map Char.toLower)

/-- The search predicate the spec describes (§4.2): the search term occurs in
the question text as a case-insensitive substring.  Stated over the lowered
character lists; used to compare the implemented search against the spec. -/
def specSearchMatches (term text : String) : Prop :=
  (term.toList.map Char.toLower) <:+: (text.toList.map Char.toLower)

instance (term text : String) : Decidable (specSearchMatches term text) :=
  List.decidableInfix _ _

/-- `Question.query.order_by(Question.id).all()` (line 83). -/
def listAllSelection (s : Store) : List Question :=
  List.insertionSort (fun a b => a.id ≤ b.id) s.questions

/-- `Question.query.filter(Question.question.ilike(f'%{search_term}%')).all()`
(lines 153–155): no `order_by`, so storage order is kept. -/
def searchSelection (term : String) (s : Store) : List Question :=
  s.questions.filter (fun q => sqlIlike ("%" ++ term ++ "%") q.question)

/-- `Question.query.filter(Question.category == category_id).all()`
(line 198): no `order_by`, so storage order is kept. -/
def categorySelection (category_id : Int) (s : Store) : List Question :=
  s.questions.filter (fun q => q.category = category_id)

/-- `{category.id: category.type for category in
Category.query.order_by(Category.type).all()}` serialised by `jsonify`: JSON
object keys are strings, iterated in `type` order. -/
def categoriesObjEntries (cats : List Category) : List (String × JValue) :=
  (List.insertionSort (fun a b => a.type ≤ b.type) cats).map
    (fun c => (toString c.id, .str c.type))

/-- The `"categories"` payload common to `get_questions` and the search
branch. -/
def categoriesObj (cats : List Category) : JValue :=
  .obj (categoriesObjEntries cats)

/-- The bodies registered by the `@app.errorhandler` functions
(lines 256–286). -/
def errorBody (code : Nat) : JValue :=
  if code = 400 then
    .obj [("success", .bool false), ("message", .str "bad request"),
          ("error", .str "400")]
  else if code = 404 then
    .obj [("success", .bool false), ("message", .str "resource not found"),
          ("error", .str "404")]
  else if code = 422 then
    .obj [("success", .bool false), ("message", .str "unprocessable"),
          ("error", .str "422")]
  else
    .obj [("success", .bool false), ("message", .str "internal server error"),
          ("error", .str "500")]

/-- Composes a handler result with the error handlers into the HTTP status
and JSON body actually sent. -/
def respond (r : Except Nat JValue) : Nat × JValue :=
  match r with
  | .ok body => (200, body)
  | .error code => (code, errorBody code)

/-- `GET /questions` (`get_questions`, lines 81–98). -/
def get_questions (args : ReqArgs) (s : Store) : Except Nat JValue :=
  let questions := listAllSelection s
  let current_questions := pagination_helper args questions
  if current_questions.length = 0 then .error 404
  else
    .ok (.obj [("success", .bool true),
               ("questions", .arr current_questions),
               ("total_questions", .int questions.length),
               ("current_category", .null),
               ("categories", categoriesObj s.categories)])

/-- Modelled from the spec: models.py's storage assigns each created Question
a fresh unique integer id (§3: "id: integer (unique, assigned by storage)").
We model the fresh id as one more than the largest stored id. -/
def nextId (s : Store) : Int :=
  (s.questions.map Question.id).foldr max 0 + 1

/-- The JSON body of `POST /questions`.  `searchTerm`, when present, is the
search string; the other four fields are the raw JSON values of the creation
form (`body.get(key, None)` yields `none` for an absent key). -/
structure QuestionsPostBody where
  searchTerm : Option String
  question : Option JValue
  answer : Option JValue
  category : Option JValue
  difficulty : Option JValue
deriving Repr

/-- `POST /questions` (`handle_questions_post`, lines 147–185): the search
branch when `"searchTerm" in body`, otherwise the creation branch.  In the
creation branch, a row whose fields do not fit the table's column types
(strings for `question`/`answer`, integers for `category`/`difficulty`) is a
storage-layer failure; modelled from the spec (§6, §7: "422 on storage
failure" — models.py and the database are outside the analysed sources). -/
def handle_questions_post (args : ReqArgs) (body : QuestionsPostBody)
    (s : Store) : Except Nat JValue :=
  match body.searchTerm with
  | some search_term =>
    let questions := searchSelection search_term s
    let current_questions := pagination_helper args questions
    .ok (.obj [("success", .bool true),
               ("questions", .arr current_questions),
               ("total_questions", .int questions.length),
               ("current_category", .null),
               ("categories", categoriesObj s.categories)])
  | none =>
    let form_question := body.question.getD .null
    let form_answer := body.answer.getD .null
    let form_category := body.category.getD .null
    let form_difficulty := body.difficulty.getD .null
    if ¬ truthy form_answer ∨ ¬ truthy form_question ∨
       ¬ truthy form_category ∨ ¬ truthy form_difficulty then
      .error 400
    else
      match form_question, form_answer, form_category, form_difficulty with
      | .str _, .str _, .int _, .int _ =>
        .ok (.obj [("success", .bool true), ("created", .int (nextId s))])
      | _, _, _, _ => .error 422

/-- `GET /categories/<int:category_id>/questions`
(`get_questions_by_category`, lines 196–209).  `one_or_none` on the category
id (ids are unique) is `List.find?`. -/
def get_questions_by_category (category_id : Int) (args : ReqArgs)
    (s : Store) : Except Nat JValue :=
  let questions := categorySelection category_id s
  let current_questions := pagination_helper args questions
  match s.categories.find? (fun c => c.id = category_id) with
  | none => .error 404
  | some category =>
    .ok (.obj [("success", .bool true),
               ("questions", .arr current_questions),
               ("total_questions", .int questions.length),
               ("current_category", .str category.type)])

/-- The JSON body of `POST /quizzes`: `previous_questions` (a list of
question ids, `[]` when absent) and the raw `quiz_category` value (`none`
when absent). -/
structure QuizBody where
  previous_questions : List Int
  quiz_category : Option JValue
deriving Repr

/-- Modelled from the spec: `Question.query.filter(Question.category ==
value)` for a raw JSON `value` — the storage layer (outside the analysed
sources) compares the integer `category` column with `value`, and a
non-integer comparison value is a storage-layer type error (§4.3: a malformed
category id "must fail distinctly"; the repository's test
`test_quizz_invalid_key` checks exactly this). -/
def filterByCategoryValue (v : JValue) (qs : List Question) :
    Except Unit (List Question) :=
  match v with
  | .int n => .ok (qs.filter (fun q => q.category = n))
  | _ => .error ()

/-- Lines 231–235 of `play_quiz`: the candidate query inside the `try` block.
`quiz_category and quiz_category['id'] != 0` filters by the raw id value;
a falsy or absent `quiz_category`, or an id equal to `0`, selects all
questions; subscripting a truthy non-dict value or a dict without an `"id"`
key raises (`.error`). -/
def quizCandidates (quiz_category : Option JValue) (s : Store) :
    Except Unit (List Question) :=
  match quiz_category with
  | none => .ok s.questions
  | some qc =>
    if truthy qc then
      match jLookup qc "id" with
      | none => .error ()
      | some idv =>
        if pyEqZero idv then .ok s.questions
        else filterByCategoryValue idv s.questions
    else .ok s.questions

/-- Lines 237–240 of `play_quiz`: `random.choice(remaining_questions).format()`
when remaining questions exist, else `None`.  `k` stands for the draw of
`random.choice`, reduced modulo the number of remaining questions. -/
def quizPick (k : Nat) (remaining : List Question) : JValue :=
  match remaining with
  | [] => .null
  | a :: l =>
    ((a :: l).get ⟨k % (a :: l).length, Nat.mod_lt _ (Nat.succ_pos _)⟩).format

/-- `POST /quizzes` (`play_quiz`, lines 223–248).  Any failure inside the
`try` block is `abort(422)`. -/
def play_quiz (k : Nat) (body : QuizBody) (s : Store) : Except Nat JValue :=
  match quizCandidates body.quiz_category s with
  | .error _ => .error 422
  | .ok questions =>
    let remaining := questions.filter
      (fun q => ! body.previous_questions.contains q.id)
    .ok (.obj [("success", .bool true), ("question", quizPick k remaining)])

theorem pythonSlice_length_of_nonneg (l : List α) (start stop : Int)
    (h0 : 0 ≤ start) (h1 : 0 ≤ stop) :
    (pythonSlice l start stop).length =
      min (min stop l.length - min start l.length).toNat
        (l.length - (min start l.length).toNat) := by
  simp only [pythonSlice, if_neg (not_lt.mpr h0), if_neg (not_lt.mpr h1),
    List.length_take, List.length_drop]

theorem pagination_helper_eq (args : ReqArgs) (selection : List Question) :
    pagination_helper args selection =
      pythonSlice (selection.map Question.format)
        ((args.page.getD 1 - 1) * args.questions_per_page.getD 10)
        ((args.page.getD 1 - 1) * args.questions_per_page.getD 10 +
          args.questions_per_page.getD 10) := rfl

/-- C1: for positive `page` and `pageSize`, `pagination_helper` returns the
slice `items[start:end]` with `start = (page-1)*pageSize` and
`end = start + pageSize`; the result has length at most `pageSize` and is
empty exactly when `start ≥ length(items)`. -/
theorem pagination_correct (page questions_per_page : Int)
    (hp : 1 ≤ page) (hq : 1 ≤ questions_per_page) (selection : List Question) :
    pagination_helper ⟨some page, some questions_per_page⟩ selection =
      pythonSlice (selection.map Question.format)
        ((page - 1) * questions_per_page)
        ((page - 1) * questions_per_page + questions_per_page) ∧
    ((pagination_helper ⟨some page, some questions_per_page⟩ selection).length : Int)
      ≤ questions_per_page ∧
    (pagination_helper ⟨some page, some questions_per_page⟩ selection = [] ↔
      (selection.length : Int) ≤ (page - 1) * questions_per_page) := by
  have hstart : 0 ≤ (page - 1) * questions_per_page :=
    mul_nonneg (by omega) (by omega)
  have hstop : 0 ≤ (page - 1) * questions_per_page + questions_per_page := by
    omega
  have hlen := pythonSlice_length_of_nonneg (selection.map Question.format)
    ((page - 1) * questions_per_page)
    ((page - 1) * questions_per_page + questions_per_page) hstart hstop
  refine ⟨rfl, ?_, ?_⟩
  · rw [pagination_helper_eq]
    simp only [Option.getD_some] at *
    omega
  · rw [pagination_helper_eq, ← List.length_eq_zero]
    simp only [Option.getD_some, List.length_map] at *
    omega

/-- Witness for `pagination_correct` at `page = 2`, `pageSize = 1` on a
two-question selection. -/
theorem pagination_correct_witness :
    (1 : Int) ≤ 2 ∧ (1 : Int) ≤ 1 ∧
    (pagination_helper ⟨some 2, some 1⟩
        [⟨1, "q1", "a1", 1, 1⟩, ⟨2, "q2", "a2", 1, 1⟩] = [] ↔
      ((2 : Nat) : Int) ≤ (2 - 1) * 1) :=
  ⟨by norm_num, by norm_num,
    (pagination_correct 2 1 (by norm_num) (by norm_num)
      [⟨1, "q1", "a1", 1, 1⟩, ⟨2, "q2", "a2", 1, 1⟩]).2.2⟩

theorem pythonSlice_sublist (l : List α) (start stop : Int) :
    List.Sublist (pythonSlice l start stop) l := by
  unfold pythonSlice
  exact (List.take_sublist _ _).trans (List.drop_sublist _ _)

theorem mem_pagination_helper {args : ReqArgs} {selection : List Question}
    {v : JValue} (hv : v ∈ pagination_helper args selection) :
    ∃ q ∈ selection, q.format = v := by
  rw [pagination_helper_eq] at hv
  have := (pythonSlice_sublist (selection.map Question.format) _ _).subset hv
  exact List.mem_map.mp this

theorem mem_categorySelection {category_id : Int} {s : Store} {q : Question} :
    q ∈ categorySelection category_id s ↔
      q ∈ s.questions ∧ q.category = category_id := by
  simp [categorySelection]

/-- C8: `GET /categories/{id}/questions` answers 404 with message
"resource not found" when no category has the given id (regardless of which
questions carry that category value); when a category with that id exists,
every question in the response has `category` equal to the given id. -/
theorem questions_by_category_status (category_id : Int) (args : ReqArgs)
    (s : Store) :
    ((∀ c ∈ s.categories, c.id ≠ category_id) →
      respond (get_questions_by_category category_id args s) =
        (404, .obj [("success", .bool false),
                    ("message", .str "resource not found"),
                    ("error", .str "404")])) ∧
    (∀ cat, s.categories.find? (fun c => c.id = category_id) = some cat →
      get_questions_by_category category_id args s =
        .ok (.obj [("success", .bool true),
                   ("questions", .arr
                     (pagination_helper args (categorySelection category_id s))),
                   ("total_questions",
                     .int (categorySelection category_id s).length),
                   ("current_category", .str cat.type)]) ∧
      ∀ v ∈ pagination_helper args (categorySelection category_id s),
        ∃ q : Question, v = q.format ∧ q.category = category_id) := by
  constructor
  · intro h
    have hfind : s.categories.find? (fun c => c.id = category_id) = none := by
      rw [List.find?_eq_none]
      intro c hc
      simpa using h c hc
    simp [get_questions_by_category, hfind, respond, errorBody]
  · intro cat hfind
    constructor
    · simp [get_questions_by_category, hfind]
    · intro v hv
      obtain ⟨q, hq, hfmt⟩ := mem_pagination_helper hv
      exact ⟨q, hfmt.symm, (mem_categorySelection.mp hq).2⟩

/-- Witness for `questions_by_category_status`: a store with one category
(id 1) and one question of category 1; the unknown id 9 gives the 404 body. -/
theorem questions_by_category_status_witness :
    respond (get_questions_by_category 9 ⟨none, none⟩
        ⟨[⟨1, "q1", "a1", 1, 1⟩], [⟨1, "Science"⟩]⟩) =
      (404, .obj [("success", .bool false),
                  ("message", .str "resource not found"),
                  ("error", .str "404")]) :=
  (questions_by_category_status 9 ⟨none, none⟩
      ⟨[⟨1, "q1", "a1", 1, 1⟩], [⟨1, "Science"⟩]⟩).1
    (by intro c hc; simp at hc; simp [hc])

theorem quizPick_mem (k : Nat) (remaining : List Question)
    (h : remaining ≠ []) :
    ∃ q ∈ remaining, quizPick k remaining = q.format := by
  match remaining with
  | [] => exact absurd rfl h
  | a :: l => exact ⟨_, List.get_mem _ _ _, rfl⟩

/-- C3: for `POST /quizzes`, the candidate set is all questions when the quiz
category is absent or its id is `0`, and otherwise the questions of that
category; candidates whose id is in `previous_questions` are removed; an
empty remainder yields a success whose `question` is `null`, and otherwise
the `question` field is one of the remaining candidates. -/
theorem play_quiz_candidates (k : Nat) (s : Store) (prev : List Int)
    (cat : Option JValue) (n : Int)
    (hcat : (cat = none ∧ n = 0) ∨
      ∃ fs, cat = some (.obj fs) ∧ fs ≠ [] ∧ fs.lookup "id" = some (.int n)) :
    ∀ remaining,
      remaining = (if n = 0 then s.questions
          else s.questions.filter (fun q => q.category = n)).filter
        (fun q => ! prev.contains q.id) →
      (remaining = [] →
        play_quiz k ⟨prev, cat⟩ s =
          .ok (.obj [("success", .bool true), ("question", .null)])) ∧
      (remaining ≠ [] →
        ∃ q ∈ remaining, play_quiz k ⟨prev, cat⟩ s =
          .ok (.obj [("success", .bool true), ("question", q.format)])) := by
  intro remaining hrem
  have hsel : quizCandidates cat s =
      .ok (if n = 0 then s.questions
        else s.questions.filter (fun q => q.category = n)) := by
    rcases hcat with ⟨hc, hn⟩ | ⟨fs, hc, hne, hid⟩
    · simp [hc, hn, quizCandidates]
    · subst hc
      have htr : truthy (.obj fs) = true := by
        simpa [truthy, List.isEmpty_iff] using hne
      by_cases hn : n = 0
      · simp [quizCandidates, htr, jLookup, hid, pyEqZero, hn]
      · simp [quizCandidates, htr, jLookup, hid, pyEqZero, hn,
          filterByCategoryValue]
  have hpq : play_quiz k ⟨prev, cat⟩ s =
      .ok (.obj [("success", .bool true),
                 ("question", quizPick k remaining)]) := by
    simp [play_quiz, hsel, hrem]
  constructor
  · intro h
    rw [hpq, h]
    rfl
  · intro h
    obtain ⟨q, hqmem, hqpick⟩ := quizPick_mem k remaining h
    exact ⟨q, hqmem, by rw [hpq, hqpick]⟩

/-- Witness for `play_quiz_candidates`: category id 1 over a store with one
Science question already seen and one unseen; the unseen question is the
remaining candidate and is returned. -/
theorem play_quiz_candidates_witness :
    ∃ q ∈ [Question.mk 2 "q2" "a2" 1 2],
      play_quiz 0 ⟨[1], some (.obj [("type", .str "Science"), ("id", .int 1)])⟩
          ⟨[⟨1, "q1", "a1", 1, 1⟩, ⟨2, "q2", "a2", 1, 2⟩], [⟨1, "Science"⟩]⟩ =
        .ok (.obj [("success", .bool true), ("question", q.format)]) := by
  have h := (play_quiz_candidates 0
      ⟨[⟨1, "q1", "a1", 1, 1⟩, ⟨2, "q2", "a2", 1, 2⟩], [⟨1, "Science"⟩]⟩
      [1] (some (.obj [("type", .str "Science"), ("id", .int 1)])) 1
      (Or.inr ⟨[("type", .str "Science"), ("id", .int 1)], rfl,
        by simp, by simp [List.lookup]⟩)
      [⟨2, "q2", "a2", 1, 2⟩] (by simp [List.filter])).2
  exact h (by simp)

theorem lookup_ne_nil {fs : List (String × JValue)} {key : String}
    {v : JValue} (h : fs.lookup key = some v) : fs ≠ [] := by
  intro hnil
  rw [hnil] at h
  exact Option.noConfusion h

/-- C4: a `POST /quizzes` whose `quiz_category.id` is of a non-numeric type
(not an integer and not a boolean — Python booleans are numeric) answers 422
"unprocessable"; it is not absorbed as a request over all categories. -/
theorem play_quiz_malformed_category_id (k : Nat) (s : Store)
    (prev : List Int) (fs : List (String × JValue)) (idv : JValue)
    (hid : fs.lookup "id" = some idv)
    (hint : ∀ n : Int, idv ≠ .int n)
    (hbool : ∀ b : Bool, idv ≠ .bool b) :
    respond (play_quiz k ⟨prev, some (.obj fs)⟩ s) =
      (422, .obj [("success", .bool false), ("message", .str "unprocessable"),
                  ("error", .str "422")]) := by
  have htr : truthy (.obj fs) = true := by
    simpa [truthy, List.isEmpty_iff] using lookup_ne_nil hid
  have hz : pyEqZero idv = false := by
    cases idv with
    | int n => exact absurd rfl (hint n)
    | bool b => exact absurd rfl (hbool b)
    | _ => rfl
  have hf : filterByCategoryValue idv s.questions = .error () := by
    cases idv with
    | int n => exact absurd rfl (hint n)
    | _ => rfl
  simp [play_quiz, quizCandidates, htr, jLookup, hid, hz, hf, respond,
    errorBody]

/-- Witness for `play_quiz_malformed_category_id`: the repository's own test
payload `{"previous_questions": [], "quiz_category": {"type": "Science",
"id": "invalid_id_type"}}`. -/
theorem play_quiz_malformed_category_id_witness :
    respond (play_quiz 0
        ⟨[], some (.obj [("type", .str "Science"),
                         ("id", .str "invalid_id_type")])⟩
        ⟨[⟨1, "q1", "a1", 1, 1⟩], [⟨1, "Science"⟩]⟩) =
      (422, .obj [("success", .bool false), ("message", .str "unprocessable"),
                  ("error", .str "422")]) :=
  play_quiz_malformed_category_id 0
    ⟨[⟨1, "q1", "a1", 1, 1⟩], [⟨1, "Science"⟩]⟩ []
    [("type", .str "Science"), ("id", .str "invalid_id_type")]
    (.str "invalid_id_type") (by simp [List.lookup])
    (fun n h => by cases h) (fun b h => by cases h)

/-- C10 as stated is false: referential integrity is not enforced, so a
question may carry a category value for which no Category row exists; a quiz
request for that id then returns that question, not `null`.  Here category 7
does not exist, yet the store's single question has `category = 7`. -/
theorem play_quiz_unknown_category_counterexample :
    (∀ c ∈ [Category.mk 1 "Science"], c.id ≠ 7) ∧
    play_quiz 0 ⟨[], some (.obj [("id", .int 7)])⟩
        ⟨[⟨1, "q1", "a1", 7, 1⟩], [⟨1, "Science"⟩]⟩ =
      .ok (.obj [("success", .bool true),
                 ("question", Question.format ⟨1, "q1", "a1", 7, 1⟩)]) ∧
    Question.format ⟨1, "q1", "a1", 7, 1⟩ ≠ .null := by
  refine ⟨by decide, rfl, fun h => by cases h⟩

/-- C10 amended: for a well-formed nonzero integer `quiz_category.id`,
`POST /quizzes` always answers 200 with `success: true` — never 404 — and
when the id matches no existing category its `question` field is `null`
provided no stored question carries that category value (which referential
integrity of the store guarantees). -/
theorem play_quiz_unknown_category (k : Nat) (s : Store) (prev : List Int)
    (fs : List (String × JValue)) (n : Int)
    (hid : fs.lookup "id" = some (.int n)) (hn : n ≠ 0) :
    (∃ body, play_quiz k ⟨prev, some (.obj fs)⟩ s = .ok body ∧
      jLookup body "success" = some (.bool true)) ∧
    ((∀ q ∈ s.questions, ∃ c ∈ s.categories, q.category = c.id) →
      (∀ c ∈ s.categories, c.id ≠ n) →
      play_quiz k ⟨prev, some (.obj fs)⟩ s =
        .ok (.obj [("success", .bool true), ("question", .null)])) := by
  have htr : truthy (.obj fs) = true := by
    simpa [truthy, List.isEmpty_iff] using lookup_ne_nil hid
  have hsel : quizCandidates (some (.obj fs)) s =
      .ok (s.questions.filter (fun q => q.category = n)) := by
    simp [quizCandidates, htr, jLookup, hid, pyEqZero, hn,
      filterByCategoryValue]
  constructor
  · have hpq : play_quiz k ⟨prev, some (.obj fs)⟩ s =
        .ok (.obj [("success", .bool true),
                   ("question", quizPick k
                     ((s.questions.filter (fun q => q.category = n)).filter
                       (fun q => ! prev.contains q.id)))]) := by
      simp only [play_quiz, hsel]
    exact ⟨_, hpq, by simp [jLookup, List.lookup]⟩
  · intro hri hunk
    have hempty : s.questions.filter (fun q => q.category = n) = [] := by
      rw [List.filter_eq_nil_iff]
      intro q hq
      obtain ⟨c, hc, hqc⟩ := hri q hq
      simp [hqc]
      exact hunk c hc
    simp [play_quiz, hsel, hempty, quizPick]

/-- Witness for `play_quiz_unknown_category`: a referentially intact store
(one Science question, category 1) asked for the unknown category 9. -/
theorem play_quiz_unknown_category_witness :
    play_quiz 0 ⟨[], some (.obj [("type", .str "Geography"), ("id", .int 9)])⟩
        ⟨[⟨1, "q1", "a1", 1, 1⟩], [⟨1, "Science"⟩]⟩ =
      .ok (.obj [("success", .bool true), ("question", .null)]) :=
  (play_quiz_unknown_category 0 ⟨[⟨1, "q1", "a1", 1, 1⟩], [⟨1, "Science"⟩]⟩
      [] [("type", .str "Geography"), ("id", .int 9)] 9
      (by simp [List.lookup]) (by norm_num)).2
    (by intro q hq; simp at hq; exact ⟨⟨1, "Science"⟩, by simp, by simp [hq]⟩)
    (by intro c hc; simp at hc; simp [hc])

/-- C5 as stated is false: the successful response of
`GET /categories/{id}/questions` carries no `categories` field at all
(lines 204–209 list only `success`, `questions`, `total_questions`,
`current_category`), here shown on a one-question, one-category store. -/
theorem category_response_no_categories_counterexample :
    get_questions_by_category 1 ⟨none, none⟩
        ⟨[⟨1, "q1", "a1", 1, 1⟩], [⟨1, "Science"⟩]⟩ =
      .ok (.obj [("success", .bool true),
                 ("questions", .arr [Question.format ⟨1, "q1", "a1", 1, 1⟩]),
                 ("total_questions", .int 1),
                 ("current_category", .str "Science")]) ∧
    jLookup (.obj [("success", .bool true),
                   ("questions", .arr [Question.format ⟨1, "q1", "a1", 1, 1⟩]),
                   ("total_questions", .int 1),
                   ("current_category", .str "Science")]) "categories" =
      none :=
  ⟨rfl, rfl⟩

/-- C5 amended: the list-all and search modes always include the full
Category mapping (`id -> type`) in their successful responses; the
filter-by-category mode does not include a `categories` field. -/
theorem responses_categories_payload (args : ReqArgs) (s : Store) :
    (∀ body, get_questions args s = .ok body →
      jLookup body "categories" = some (categoriesObj s.categories)) ∧
    (∀ term body,
      handle_questions_post args ⟨some term, none, none, none, none⟩ s =
        .ok body →
      jLookup body "categories" = some (categoriesObj s.categories)) ∧
    (∀ category_id body,
      get_questions_by_category category_id args s = .ok body →
      jLookup body "categories" = none) ∧
    (∀ c ∈ s.categories,
      (toString c.id, JValue.str c.type) ∈ categoriesObjEntries s.categories)
    := by
  refine ⟨?_, ?_, ?_, ?_⟩
  · intro body h
    simp only [get_questions] at h
    split at h
    · exact absurd h (by simp)
    · cases h
      rfl
  · intro term body h
    simp only [handle_questions_post] at h
    cases h
    rfl
  · intro category_id body h
    simp only [get_questions_by_category] at h
    split at h
    · exact absurd h (by simp)
    · cases h
      rfl
  · intro c hc
    exact List.mem_map_of_mem _
      ((List.mem_insertionSort (fun a b => a.type ≤ b.type)).mpr hc)

/-- Witness for `responses_categories_payload`: on a concrete store, the
search response's `categories` field is the full mapping. -/
theorem responses_categories_payload_witness :
    jLookup (.obj [("success", .bool true),
                   ("questions", .arr [Question.format ⟨1, "q1", "a1", 1, 1⟩]),
                   ("total_questions", .int 1),
                   ("current_category", .null),
                   ("categories",
                     categoriesObj [⟨1, "Science"⟩, ⟨2, "Art"⟩])])
        "categories" =
      some (categoriesObj [⟨1, "Science"⟩, ⟨2, "Art"⟩]) :=
  (responses_categories_payload ⟨none, none⟩
      ⟨[⟨1, "q1", "a1", 1, 1⟩], [⟨1, "Science"⟩, ⟨2, "Art"⟩]⟩).2.1
    "q" _ rfl

/-- C6 as stated is false: the search query applies no ordering, so its
result keeps storage order.  In a store holding question id 2 before
question id 1 (both matching the term "q"), the search selection is
`[id 2, id 1]`, which is not sorted by ascending id. -/
theorem search_order_counterexample :
    searchSelection "q"
        ⟨[⟨2, "q2", "a2", 1, 1⟩, ⟨1, "q1", "a1", 1, 1⟩], [⟨1, "Science"⟩]⟩ =
      [⟨2, "q2", "a2", 1, 1⟩, ⟨1, "q1", "a1", 1, 1⟩] ∧
    ¬ List.Sorted (fun a b : Question => a.id ≤ b.id)
        [⟨2, "q2", "a2", 1, 1⟩, ⟨1, "q1", "a1", 1, 1⟩] := by
  refine ⟨rfl, ?_⟩
  intro h
  have h21 := List.rel_of_sorted_cons h _ (List.mem_cons_self _ _)
  exact absurd h21 (by decide)

/-- C6 amended: the list-all selection is sorted by ascending id; the search
and filter-by-category selections apply no ordering — they are sublists of
the stored question list in storage order, and are sorted by ascending id
only when the store itself is. -/
theorem selection_ordering (s : Store) (term : String) (category_id : Int) :
    List.Sorted (fun a b : Question => a.id ≤ b.id) (listAllSelection s) ∧
    List.Sublist (searchSelection term s) s.questions ∧
    List.Sublist (categorySelection category_id s) s.questions ∧
    (List.Sorted (fun a b : Question => a.id ≤ b.id) s.questions →
      List.Sorted (fun a b : Question => a.id ≤ b.id)
          (searchSelection term s) ∧
      List.Sorted (fun a b : Question => a.id ≤ b.id)
          (categorySelection category_id s)) := by
  haveI : IsTotal Question (fun a b => a.id ≤ b.id) :=
    ⟨fun a b => le_total a.id b.id⟩
  haveI : IsTrans Question (fun a b => a.id ≤ b.id) :=
    ⟨fun _ _ _ hab hbc => le_trans hab hbc⟩
  refine ⟨List.sorted_insertionSort _ _, List.filter_sublist _,
    List.filter_sublist _, fun hs => ⟨?_, ?_⟩⟩
  · exact hs.sublist (List.filter_sublist _)
  · exact hs.sublist (List.filter_sublist _)

/-- Witness for `selection_ordering`: on a store already sorted by id, the
category selection is sorted by id. -/
theorem selection_ordering_witness :
    List.Sorted (fun a b : Question => a.id ≤ b.id)
      (categorySelection 1
        ⟨[⟨1, "q1", "a1", 1, 1⟩, ⟨2, "q2", "a2", 1, 1⟩], [⟨1, "Science"⟩]⟩) :=
  ((selection_ordering
      ⟨[⟨1, "q1", "a1", 1, 1⟩, ⟨2, "q2", "a2", 1, 1⟩], [⟨1, "Science"⟩]⟩
      "q" 1).2.2.2 (by decide)).2

/-- C7 as stated is false: the creation branch tests Python truthiness
(`not form_category`, `not form_difficulty`), so the integer `0` — present
and non-empty — is rejected with 400.  Here all four fields are present,
the strings non-empty, yet `difficulty = 0` gives status 400, not 200. -/
theorem create_question_zero_counterexample :
    respond (handle_questions_post ⟨none, none⟩
        ⟨none, some (.str "What is the loneliest number?"), some (.str "One"),
         some (.int 1), some (.int 0)⟩ ⟨[], [⟨1, "Science"⟩]⟩) =
      (400, .obj [("success", .bool false), ("message", .str "bad request"),
                  ("error", .str "400")]) := rfl

/-- C7 amended: on the creation branch, a missing or falsy field (absent,
empty string, or zero) answers 400; four present fields — non-empty strings
for `question`/`answer` and nonzero integers for `category`/`difficulty` —
answer 200 with the id of the newly created question. -/
theorem create_question_validation (args : ReqArgs) (s : Store)
    (body : QuestionsPostBody) (hsearch : body.searchTerm = none) :
    ((¬ truthy (body.question.getD .null) ∨
      ¬ truthy (body.answer.getD .null) ∨
      ¬ truthy (body.category.getD .null) ∨
      ¬ truthy (body.difficulty.getD .null)) →
      respond (handle_questions_post args body s) =
        (400, .obj [("success", .bool false), ("message", .str "bad request"),
                    ("error", .str "400")])) ∧
    (∀ qtext atext c d, body.question = some (.str qtext) → qtext ≠ "" →
      body.answer = some (.str atext) → atext ≠ "" →
      body.category = some (.int c) → c ≠ 0 →
      body.difficulty = some (.int d) → d ≠ 0 →
      handle_questions_post args body s =
        .ok (.obj [("success", .bool true), ("created", .int (nextId s))]))
    := by
  constructor
  · intro hfalsy
    simp only [handle_questions_post, hsearch]
    rw [if_pos (by tauto)]
    rfl
  · intro qtext atext c d hq hqne ha hane hc hcne hd hdne
    simp only [handle_questions_post, hsearch, hq, ha, hc, hd,
      Option.getD_some]
    rw [if_neg (by simp [truthy, hqne, hane, hcne, hdne])]

/-- Witness for `create_question_validation`: a complete well-typed creation
body on a one-question store; the created id is the fresh id 2. -/
theorem create_question_validation_witness :
    handle_questions_post ⟨none, none⟩
        ⟨none, some (.str "What is the capital of California?"),
         some (.str "Sacramento"), some (.int 1), some (.int 2)⟩
        ⟨[⟨1, "q1", "a1", 1, 1⟩], [⟨1, "Science"⟩]⟩ =
      .ok (.obj [("success", .bool true), ("created", .int 2)]) :=
  (create_question_validation ⟨none, none⟩
      ⟨[⟨1, "q1", "a1", 1, 1⟩], [⟨1, "Science"⟩]⟩
      ⟨none, some (.str "What is the capital of California?"),
       some (.str "Sacramento"), some (.int 1), some (.int 2)⟩ rfl).2
    "What is the capital of California?" "Sacramento" 1 2
    rfl (by simp) rfl (by simp) rfl (by norm_num) rfl (by norm_num)

/-- C9: the search branch and the category filter both paginate through
`pagination_helper` with the optional `page` and `questions_per_page`
parameters while `total_questions` is the pre-pagination match count; absent
parameters default to page 1 and page size 10, and with a valid page size the
returned page never exceeds it (a larger match set is truncated). -/
theorem search_and_category_are_paginated (s : Store) (term : String)
    (category_id : Int) (args : ReqArgs) :
    handle_questions_post args ⟨some term, none, none, none, none⟩ s =
      .ok (.obj [("success", .bool true),
                 ("questions", .arr
                   (pagination_helper args (searchSelection term s))),
                 ("total_questions", .int (searchSelection term s).length),
                 ("current_category", .null),
                 ("categories", categoriesObj s.categories)]) ∧
    (∀ cat, s.categories.find? (fun c => c.id = category_id) = some cat →
      get_questions_by_category category_id args s =
        .ok (.obj [("success", .bool true),
                   ("questions", .arr
                     (pagination_helper args
                       (categorySelection category_id s))),
                   ("total_questions",
                     .int (categorySelection category_id s).length),
                   ("current_category", .str cat.type)])) ∧
    (∀ selection : List Question, pagination_helper ⟨none, none⟩ selection =
      pythonSlice (selection.map Question.format) 0 10) ∧
    (∀ (selection : List Question) (page qpp : Int), 1 ≤ page → 1 ≤ qpp →
      ((pagination_helper ⟨some page, some qpp⟩ selection).length : Int)
        ≤ qpp) := by
  refine ⟨rfl, ?_, fun _ => rfl, ?_⟩
  · intro cat hfind
    simp [get_questions_by_category, hfind]
  · intro selection page qpp hp hq
    have hstart : 0 ≤ (page - 1) * qpp := mul_nonneg (by omega) (by omega)
    have hlen := pythonSlice_length_of_nonneg (selection.map Question.format)
      ((page - 1) * qpp) ((page - 1) * qpp + qpp) hstart (by omega)
    rw [pagination_helper_eq]
    simp only [Option.getD_some, QUESTIONS_PER_PAGE] at *
    omega

/-- Witness for `search_and_category_are_paginated`: with page size 1, the
category filter's two matches are truncated to one. -/
theorem search_and_category_are_paginated_witness :
    ((pagination_helper ⟨some 1, some 1⟩
        [⟨1, "q1", "a1", 1, 1⟩, ⟨2, "q2", "a2", 1, 2⟩]).length : Int) ≤ 1 :=
  (search_and_category_are_paginated
      ⟨[⟨1, "q1", "a1", 1, 1⟩, ⟨2, "q2", "a2", 1, 2⟩], [⟨1, "Science"⟩]⟩
      "q" 1 ⟨some 1, some 1⟩).2.2.2
    [⟨1, "q1", "a1", 1, 1⟩, ⟨2, "q2", "a2", 1, 2⟩] 1 1
    (by norm_num) (by norm_num)

theorem toNat_ofNat_of_lower (n : Nat) (h1 : 97 ≤ n) (h2 : n ≤ 122) :
    (Char.ofNat n).toNat = n := by
  have hv : n.isValidChar := Or.inl (by omega)
  simp [Char.ofNat, hv, Char.ofNatAux, Char.toNat, UInt32.toNat,
    BitVec.toNat_ofNatLt]

theorem toLower_not_wildcard (c : Char) (h1 : c ≠ '%') (h2 : c ≠ '_') :
    Char.toLower c ≠ '%' ∧ Char.toLower c ≠ '_' := by
  simp only [Char.toLower]
  split
  next hle =>
    have ht : (Char.ofNat (c.toNat + 32)).toNat = c.toNat + 32 :=
      toNat_ofNat_of_lower _ (by omega) (by omega)
    have hpc : Char.toNat '%' = 37 := rfl
    have huc : Char.toNat '_' = 95 := rfl
    constructor
    · intro heq
      have := congrArg Char.toNat heq
      rw [ht, hpc] at this
      omega
    · intro heq
      have := congrArg Char.toNat heq
      rw [ht, huc] at this
      omega
  next => exact ⟨h1, h2⟩

theorem likeMatch_percent_cons (ps cs : List Char) :
    likeMatch ('%' :: ps) cs = cs.tails.any (fun t => likeMatch ps t) := by
  simp [likeMatch]

theorem likeMatch_plain_then_percent (p : List Char)
    (hp : ∀ c ∈ p, c ≠ '%' ∧ c ≠ '_') :
    ∀ cs : List Char, likeMatch (p ++ ['%']) cs = true ↔ p <+: cs := by
  induction p with
  | nil =>
    intro cs
    simp only [List.nil_append]
    constructor
    · intro _
      exact List.nil_prefix
    · intro _
      rw [likeMatch_percent_cons, List.any_eq_true]
      refine ⟨[], (List.mem_tails _ _).mpr List.nil_suffix, rfl⟩
  | cons a p ih =>
    intro cs
    have ha := hp a (List.mem_cons_self a p)
    have hp2 : ∀ c ∈ p, c ≠ '%' ∧ c ≠ '_' :=
      fun c hc => hp c (List.mem_cons_of_mem a hc)
    cases cs with
    | nil =>
      simp [likeMatch, ha.1, List.prefix_nil]
    | cons c cs2 =>
      rw [List.cons_prefix_cons]
      simp only [List.cons_append, likeMatch, if_neg ha.1,
        Bool.and_eq_true, decide_eq_true_eq, Bool.or_eq_true,
        List.append_eq]
      rw [ih hp2 cs2]
      have : (a = '_') = False := by simp [ha.2]
      simp [this]

theorem sqlIlike_pattern_toList (term text : String) :
    sqlIlike ("%" ++ term ++ "%") text =
      likeMatch ('%' :: (term.toList.map Char.toLower ++ ['%']))
        (text.toList.map Char.toLower) := by
  have h : ("%" ++ term ++ "%").toList = '%' :: (term.toList ++ ['%']) := by
    simp
  rw [sqlIlike, h]
  simp

/-- A search term without the `LIKE` metacharacters `%` and `_` matches under
`ilike('%term%')` exactly the texts containing it as a case-insensitive
substring. -/
theorem sqlIlike_eq_substring (term text : String)
    (h : ∀ c ∈ term.toList, c ≠ '%' ∧ c ≠ '_') :
    sqlIlike ("%" ++ term ++ "%") text = true ↔ specSearchMatches term text
    := by
  have hlow : ∀ c ∈ term.toList.map Char.toLower, c ≠ '%' ∧ c ≠ '_' := by
    intro c hc
    obtain ⟨d, hd, hdc⟩ := List.mem_map.mp hc
    exact hdc ▸ toLower_not_wildcard d (h d hd).1 (h d hd).2
  rw [sqlIlike_pattern_toList, likeMatch_percent_cons, List.any_eq_true]
  unfold specSearchMatches
  constructor
  · rintro ⟨t, ht, hmatch⟩
    have hpre := (likeMatch_plain_then_percent _ hlow t).mp hmatch
    exact List.infix_iff_prefix_suffix.mpr
      ⟨t, hpre, (List.mem_tails _ _).mp ht⟩
  · intro hinf
    obtain ⟨t, hpre, hsuf⟩ := List.infix_iff_prefix_suffix.mp hinf
    exact ⟨t, (List.mem_tails _ _).mpr hsuf,
      (likeMatch_plain_then_percent _ hlow t).mpr hpre⟩

/-- C2 as stated is false: the search term is interpolated unescaped into the
`ilike` pattern, so `_` in the term acts as a single-character wildcard.  The
term "Test_question" is not a substring of "Test question 1", yet the
question is returned by the search. -/
theorem search_wildcard_counterexample :
    searchSelection "Test_question"
        ⟨[⟨1, "Test question 1", "a1", 1, 1⟩], [⟨1, "Science"⟩]⟩ =
      [⟨1, "Test question 1", "a1", 1, 1⟩] ∧
    ¬ specSearchMatches "Test_question" "Test question 1" :=
  ⟨rfl, by decide⟩

/-- C2 amended: the search selection consists exactly of the stored questions
whose text matches the SQL pattern `%term%` case-insensitively, where `%` and
`_` in the term act as `LIKE` wildcards; for a term containing neither `%`
nor `_` this is precisely case-insensitive substring matching. -/
theorem search_matching (term : String) (s : Store) (q : Question) :
    (q ∈ searchSelection term s ↔
      q ∈ s.questions ∧ sqlIlike ("%" ++ term ++ "%") q.question = true) ∧
    ((∀ c ∈ term.toList, c ≠ '%' ∧ c ≠ '_') →
      (q ∈ searchSelection term s ↔
        q ∈ s.questions ∧ specSearchMatches term q.question)) := by
  constructor
  · simp [searchSelection]
  · intro h
    simp [searchSelection, sqlIlike_eq_substring _ _ h]

/-- Witness for `search_matching`: searching "TEST" finds the question
"Test question 1" — the spec's own case-insensitivity example. -/
theorem search_matching_witness :
    (⟨1, "Test question 1", "a1", 1, 1⟩ : Question) ∈
        searchSelection "TEST"
          ⟨[⟨1, "Test question 1", "a1", 1, 1⟩], [⟨1, "Science"⟩]⟩ ↔
      (⟨1, "Test question 1", "a1", 1, 1⟩ : Question) ∈
          [(⟨1, "Test question 1", "a1", 1, 1⟩ : Question)] ∧
        specSearchMatches "TEST" "Test question 1" :=
  (search_matching "TEST" ⟨[⟨1, "Test question 1", "a1", 1, 1⟩],
      [⟨1, "Science"⟩]⟩ ⟨1, "Test question 1", "a1", 1, 1⟩).2
    (by decide)

end Trivia
